import Mathlib

/-!
Shallow embedding of the sender transfer state machine of alt-sendme
(src/web-app/src/components/sender/Sender.tsx, which contains the
`Sender` component followed by the `useSender` hook; all line numbers
below refer to that file).

Modelling conventions:
* React state updates (`setX(v)` and functional updaters) are modelled as
  immediate assignments inside one run-to-completion step, matching the
  run-to-completion event handling the spec describes in section 5.
* The ref-sync effect `lastProgressRef.current = transferProgress`
  (lines 229-231) is folded into each call of `setTransferProgress`:
  after the commit of a step that wrote `transferProgress`, the effect
  has synchronised the ref, and no handler reads the ref between its own
  write of `transferProgress` and the end of the step.
  `transferStartTimeRef` and `selectedPathRef` (lines 221-227) are
  likewise collapsed into the corresponding state fields.
* Awaited collaborator calls are given their results as step parameters;
  the `await invoke("get_file_size")` inside the completed listener is
  the one suspension the claims talk about, so the completed listener is
  split into an arrival step and a resolution step with an explicit
  `pendingComplete` record for the in-flight lookup.
* JavaScript timers are modelled explicitly: `progressUpdateTimeout`
  holds the pending debounced visible-progress payload; the two
  anonymous 2000 ms `setTimeout` callbacks (lines 432-436 and 538-548)
  are armed flags with their own firing triggers. The `setTimeout(.., 0)`
  tricks used to order metadata before status (lines 387-390, 426-429)
  are folded into the same step, as the spec directs in section 9.
* JavaScript numbers met here are integers or NaN; a possibly-NaN
  integer is `Option Int` (none = NaN) and a possibly-NaN rational is
  `Option Rat`. Timestamps (`Date.now()`) are `Nat` step parameters.
* The interfaces of types/sender.ts are not part of the sources; field
  lists are taken from the construction sites in the hook, and
  `TransferMetadata.wasStopped` is modelled from the spec as a `Bool`
  (the completion path of the hook leaves the field absent, which every
  boolean read in JavaScript treats as false, hence `false` here).
-/

namespace AltSendme

/-- The SenderStatus enum (types/sender.ts, values as used by the hook). -/
inductive SenderStatus where
  | IDLE
  | FILE_SELECTED
  | WAITING_FOR_RECEIVER
  | TRANSFERRING
  | TRANSFER_COMPLETE
  | TRANSFER_STOPPED
deriving DecidableEq, Repr

/-- Result of the check_path_type collaborator call (line 467). -/
inductive PathType where
  | file
  | directory
deriving DecidableEq, Repr

/-- Alert severity as used by showAlert (lines 456-458). -/
inductive AlertType where
  | info
  | error
deriving DecidableEq, Repr

/-- The alertDialog state record (lines 201-206). -/
structure AlertDialogState where
  isOpen : Bool
  title : String
  description : String
  type : AlertType
deriving DecidableEq, Repr

/-- A parsed progress sample (progressData, lines 266-271). A `none`
integer or rational component models a JavaScript NaN produced by a
failed parseInt. -/
structure TransferProgress where
  bytesTransferred : Option Int
  totalBytes : Option Int
  speedBps : Option Rat
  percentage : Option Rat
deriving DecidableEq, Repr

/-- Terminal metadata as constructed at lines 352-358, 363-369, 373-379,
414-421 and 523-530. The completion sites omit wasStopped (undefined,
falsy); it is modelled from the spec as the Bool false there. -/
structure TransferMetadata where
  fileName : String
  fileSize : Nat
  duration : Int
  startTime : Nat
  endTime : Nat
  wasStopped : Bool
deriving DecidableEq, Repr

/-- Values captured by the completed listener before it suspends on the
get_file_size lookup (lines 339-344 and 350). -/
structure PendingComplete where
  path : String
  duration : Int
  startTime : Option Nat
  endTime : Nat
deriving DecidableEq, Repr

/-- The complete mutable state of the useSender hook: the useState cells
(lines 191-206), the refs that are not pure mirrors of a state cell
(wasManuallyStoppedRef line 200, lastProgressRef line 217), the pending
debounce timer (progressUpdateTimeout line 244), the in-flight file-size
lookup, and the armed 2000 ms decay timers. -/
structure SenderState where
  senderStatus : SenderStatus
  ticket : Option String
  selectedPath : Option String
  pathType : Option PathType
  isLoading : Bool
  copySuccess : Bool
  alertDialog : AlertDialogState
  transferMetadata : Option TransferMetadata
  transferProgress : Option TransferProgress
  transferStartTime : Option Nat
  wasManuallyStopped : Bool
  lastProgressRef : Option TransferProgress
  progressUpdateTimeout : Option TransferProgress
  pendingComplete : Option PendingComplete
  stopDecayArmed : Bool
  failedDecayArmed : Bool
deriving DecidableEq, Repr

/-- Initial hook state (lines 191-206): IDLE, everything empty. -/
def initState : SenderState where
  senderStatus := .IDLE
  ticket := none
  selectedPath := none
  pathType := none
  isLoading := false
  copySuccess := false
  alertDialog := ⟨false, "", "", .info⟩
  transferMetadata := none
  transferProgress := none
  transferStartTime := none
  wasManuallyStopped := false
  lastProgressRef := none
  progressUpdateTimeout := none
  pendingComplete := none
  stopDecayArmed := false
  failedDecayArmed := false

/-- JavaScript String.prototype.split with a one-character separator:
splits on every occurrence, keeping empty pieces, and maps the empty
string to a single empty piece. -/
def jsSplitCharAux (sep : Char) : List Char → List String
  | [] => [""]
  | c :: cs =>
    let rest := jsSplitCharAux sep cs
    if c = sep then "" :: rest
    else
      match rest with
      | r :: rs => String.mk (c :: r.data) :: rs
      | [] => [String.mk [c]]

/-- JavaScript s.split(sep) for a single-character sep. -/
def jsSplit (sep : Char) (s : String) : List String :=
  jsSplitCharAux sep s.data

/-- JavaScript parseInt(s, 10): skip leading whitespace, read an optional
sign, then the longest ASCII digit prefix; NaN (here none) when no digit
is found. Values are kept exact (float rounding is out of scope). -/
def jsParseInt (s : String) : Option Int :=
  let cs := s.data.dropWhile fun c => c = ' ' ∨ c = '\t' ∨ c = '\n' ∨ c = '\r'
  let signAndRest : Int × List Char :=
    match cs with
    | '-' :: rest => (-1, rest)
    | '+' :: rest => (1, rest)
    | _ => (1, cs)
  let ds := signAndRest.2.takeWhile Char.isDigit
  if ds.isEmpty then none
  else some (signAndRest.1 * (ds.foldl (fun a c => a * 10 + (c.toNat - 48)) 0 : Nat))

/-- JavaScript truthiness test totalBytes > 0 on a possibly-NaN integer:
NaN > 0 is false. -/
def jsGtZero : Option Int → Bool
  | some n => decide (0 < n)
  | none => false

/-- JavaScript startTime || endTime on a nullable number: null and 0 are
falsy, so both fall back to the default. -/
def jsOrNat (o : Option Nat) (d : Nat) : Nat :=
  match o with
  | some n => if n = 0 then d else n
  | none => d

/-- JavaScript startTime ? endTime - startTime : 0 (lines 342, 410):
null and 0 are falsy and give duration 0. -/
def jsDuration (startTime : Option Nat) (endTime : Nat) : Int :=
  match startTime with
  | some st => if st = 0 then 0 else (endTime : Int) - (st : Int)
  | none => 0

/-- JavaScript path.split(sep).pop() || "Unknown" on a nullable path
(lines 351, 362, 413, 521): optional chaining on null and an empty last
piece both fall back to "Unknown". -/
def jsFileName : Option String → String
  | none => "Unknown"
  | some p =>
    let last := (jsSplit '/' p).getLastD ""
    if last = "" then "Unknown" else last

/-- showAlert (lines 456-458). -/
def showAlert (title description : String) (type : AlertType) (s : SenderState) : SenderState :=
  { s with alertDialog := ⟨true, title, description, type⟩ }

/-- closeAlert (lines 460-462). -/
def closeAlert (s : SenderState) : SenderState :=
  { s with alertDialog := { s.alertDialog with isOpen := false } }

/-- setTransferProgress(p) together with the folded ref-sync effect of
lines 229-231, which copies the committed value into lastProgressRef
before the next trigger runs. -/
def setTransferProgress (p : Option TransferProgress) (s : SenderState) : SenderState :=
  { s with transferProgress := p, lastProgressRef := p }

/-- handleFileSelect (lines 464-475): the path is stored before the
classify call; on success the pathType is stored and the status becomes
FILE_SELECTED, on failure only the pathType is cleared. The classify
result of the awaited check_path_type call is a parameter. -/
def handleFileSelect (path : String) (classify : Option PathType) (s : SenderState) : SenderState :=
  let s := { s with selectedPath := some path }
  match classify with
  | some t => { s with pathType := some t, senderStatus := .FILE_SELECTED }
  | none => { s with pathType := none }

/-- startSharing (lines 477-493): no-op without a selection; on backend
success the ticket is stored and the status becomes WAITING_FOR_RECEIVER;
on backend failure an alert is shown and nothing else changes. isLoading
is true only inside the folded await, so it ends false either way. -/
def startSharing (result : Except String String) (s : SenderState) : SenderState :=
  match s.selectedPath with
  | none => s
  | some _ =>
    match result with
    | .ok t => { s with ticket := some t, senderStatus := .WAITING_FOR_RECEIVER, isLoading := false }
    | .error e =>
      showAlert "Sharing Failed" ("Failed to start sharing: " ++ e) .error { s with isLoading := false }

/-- stopSharing (lines 495-573). The stopRes parameter is the outcome of
the awaited invoke("stop_sharing"); in the WAITING_FOR_RECEIVER branch
the call precedes every mutation, so a failure there reaches the catch
with no state change beyond the alert; in the TRANSFERRING branch the
mutations precede the call, and a failure skips arming the decay timer;
the reset branch attaches .catch and ignores the outcome. -/
def stopSharing (now : Nat) (stopRes : Except String Unit) (s : SenderState) : SenderState :=
  if s.senderStatus = .WAITING_FOR_RECEIVER then
    match stopRes with
    | .error e => showAlert "Stop Sharing Failed" ("Failed to stop sharing: " ++ e) .error s
    | .ok _ =>
      setTransferProgress none
        { s with senderStatus := .IDLE, ticket := none, selectedPath := none,
                 pathType := none, transferStartTime := none, transferMetadata := none,
                 wasManuallyStopped := false }
  else if s.senderStatus = .TRANSFERRING then
    let stoppedMetadata : TransferMetadata :=
      { fileName := jsFileName s.selectedPath
        fileSize := 0
        duration := 0
        startTime := jsOrNat s.transferStartTime now
        endTime := now
        wasStopped := true }
    let s := { s with wasManuallyStopped := true, transferMetadata := some stoppedMetadata,
                      senderStatus := .TRANSFER_STOPPED }
    match stopRes with
    | .error e => showAlert "Stop Sharing Failed" ("Failed to stop sharing: " ++ e) .error s
    | .ok _ => { s with stopDecayArmed := true }
  else if s.senderStatus = .TRANSFER_COMPLETE ∨ s.senderStatus = .TRANSFER_STOPPED then
    setTransferProgress none
      { s with wasManuallyStopped := false, senderStatus := .IDLE, ticket := none,
               selectedPath := none, pathType := none, transferStartTime := none,
               transferMetadata := none }
  else s

/-- The anonymous 2000 ms decay scheduled by stopSharing in the
TRANSFERRING branch (lines 538-548): a full reset to IDLE. The timer
handle is never stored by the source, so nothing ever cancels it; it
fires whatever the current state is. -/
def stopAutoDecay (s : SenderState) : SenderState :=
  if s.stopDecayArmed then
    setTransferProgress none
      { s with stopDecayArmed := false, senderStatus := .IDLE, ticket := none,
               selectedPath := none, pathType := none, transferStartTime := none,
               transferMetadata := none, wasManuallyStopped := false }
  else s

/-- The anonymous 2000 ms decay scheduled by the transfer-failed listener
(lines 432-436): it sets the status to IDLE and clears only the
metadata. Its handle is likewise never stored, so it is uncancellable. -/
def failedAutoDecay (s : SenderState) : SenderState :=
  if s.failedDecayArmed then
    { s with failedDecayArmed := false, senderStatus := .IDLE, transferMetadata := none }
  else s

/-- Parsing of one three-part payload into progressData (lines 256-271).
NaN components propagate exactly as in JavaScript: speed NaN / 1000 is
NaN; a NaN totalBytes fails the > 0 test and yields percentage 0, while
a NaN bytesTransferred over a positive total yields percentage NaN. -/
def parseSample (p0 p1 p2 : String) : TransferProgress :=
  let bytesTransferred := jsParseInt p0
  let totalBytes := jsParseInt p1
  let speedInt := jsParseInt p2
  let speedBps := speedInt.map fun n => (n : Rat) / 1000
  let percentage : Option Rat :=
    if jsGtZero totalBytes then
      match bytesTransferred, totalBytes with
      | some b, some t => some ((b : Rat) / (t : Rat) * 100)
      | _, _ => none
    else some 0
  { bytesTransferred, totalBytes, speedBps, percentage }

/-- The transfer-progress listener (lines 249-299). Payloads that do not
split into exactly three parts fall through the length check and change
nothing (the catch is unreachable for string payloads since parseInt
never throws). For three parts: the ref is updated first (line 272),
then the WAITING_FOR_RECEIVER-with-positive-total transition runs with
its clears (lines 275-286), then the pending debounce update is replaced
by the new sample (lines 288-294). -/
def onTransferProgress (payload : String) (now : Nat) (s : SenderState) : SenderState :=
  match jsSplit ':' payload with
  | [p0, p1, p2] =>
    let progressData := parseSample p0 p1 p2
    let s := { s with lastProgressRef := some progressData }
    let s :=
      if s.senderStatus = .WAITING_FOR_RECEIVER ∧ jsGtZero progressData.totalBytes = true then
        setTransferProgress none
          { s with senderStatus := .TRANSFERRING, transferStartTime := some now,
                   transferMetadata := none, wasManuallyStopped := false }
      else s
    { s with progressUpdateTimeout := some progressData }
  | _ => s

/-- Firing of the 100 ms debounce timer (lines 292-294): publishes the
pending sample as the visible progress. -/
def fireProgressTimeout (s : SenderState) : SenderState :=
  match s.progressUpdateTimeout with
  | some p => setTransferProgress (some p) { s with progressUpdateTimeout := none }
  | none => s

/-- Arrival of a transfer-completed notification (lines 301-390 up to the
get_file_size suspension). Discarded while manually stopped (304-307) or
outside TRANSFERRING (309-321); otherwise the debounce timer is cleared,
the visible progress nulled, the timing values captured, and either the
file-size lookup is left in flight (path present) or the fallback
metadata is committed at once together with the TRANSFER_COMPLETE status
(path absent, lines 371-381 with the folded zero-delay timeout). -/
def onTransferCompleted (now : Nat) (s : SenderState) : SenderState :=
  if s.wasManuallyStopped then s
  else if s.senderStatus ≠ .TRANSFERRING then s
  else
    let s := setTransferProgress none { s with progressUpdateTimeout := none }
    let endTime := now
    let startTime := s.transferStartTime
    let duration := jsDuration startTime endTime
    match s.selectedPath with
    | some path =>
      { s with pendingComplete := some ⟨path, duration, startTime, endTime⟩ }
    | none =>
      let metadata : TransferMetadata :=
        { fileName := "Unknown", fileSize := 0, duration,
          startTime := jsOrNat startTime endTime, endTime, wasStopped := false }
      { s with transferMetadata := some metadata, senderStatus := .TRANSFER_COMPLETE }

/-- Resumption of the completed listener after the get_file_size await
(lines 350-390): the lookup result (none when the call failed, giving
the zero-size fallback of lines 360-369) is turned into metadata and the
TRANSFER_COMPLETE status is committed. The source re-checks neither the
status nor the manual-stop flag here. -/
def onGetFileSizeResolved (fsRes : Option Nat) (s : SenderState) : SenderState :=
  match s.pendingComplete with
  | none => s
  | some pc =>
    let metadata : TransferMetadata :=
      { fileName := jsFileName (some pc.path)
        fileSize := fsRes.getD 0
        duration := pc.duration
        startTime := jsOrNat pc.startTime pc.endTime
        endTime := pc.endTime
        wasStopped := false }
    { s with pendingComplete := none, transferMetadata := some metadata,
             senderStatus := .TRANSFER_COMPLETE }

/-- The transfer-failed listener (lines 393-437): discarded while
manually stopped; otherwise clears the debounce timer and the visible
progress, builds wasStopped metadata, commits TRANSFER_STOPPED (folded
zero-delay timeout) and arms the 2000 ms decay of lines 432-436. -/
def onTransferFailed (now : Nat) (s : SenderState) : SenderState :=
  if s.wasManuallyStopped then s
  else
    let s := setTransferProgress none { s with progressUpdateTimeout := none }
    let endTime := now
    let startTime := s.transferStartTime
    let metadata : TransferMetadata :=
      { fileName := jsFileName s.selectedPath
        fileSize := 0
        duration := jsDuration startTime endTime
        startTime := jsOrNat startTime endTime
        endTime := endTime
        wasStopped := true }
    { s with transferMetadata := some metadata, senderStatus := .TRANSFER_STOPPED,
             failedDecayArmed := true }

/-- One named trigger of the run-to-completion model: a user command with
the outcome of its awaited collaborator call, a backend event with its
timestamp, the resolution of the in-flight file-size lookup, or the
firing of one of the armed timers. -/
inductive Trigger where
  | selectFile (path : String) (classify : Option PathType)
  | startShare (result : Except String String)
  | stopShare (now : Nat) (stopRes : Except String Unit)
  | progressEvent (payload : String) (now : Nat)
  | completedArrive (now : Nat)
  | completeResolve (fsRes : Option Nat)
  | failedEvent (now : Nat)
  | progressTimerFire
  | stopDecayFire
  | failedDecayFire

/-- The one-step transition function of the machine. -/
def step : Trigger → SenderState → SenderState
  | .selectFile p c, s => handleFileSelect p c s
  | .startShare r, s => startSharing r s
  | .stopShare now r, s => stopSharing now r s
  | .progressEvent pl now, s => onTransferProgress pl now s
  | .completedArrive now, s => onTransferCompleted now s
  | .completeResolve r, s => onGetFileSizeResolved r s
  | .failedEvent now, s => onTransferFailed now s
  | .progressTimerFire, s => fireProgressTimeout s
  | .stopDecayFire, s => stopAutoDecay s
  | .failedDecayFire, s => failedAutoDecay s

/-- Executing a sequence of triggers from a given state. -/
def run (s : SenderState) : List Trigger → SenderState
  | [] => s
  | t :: ts => run (step t s) ts

/-! Concrete states and traces used by witnesses and counterexamples. -/

/-- A state waiting for a receiver, as produced by selecting a file and
starting to share. -/
def exWaiting : SenderState :=
  { initState with senderStatus := .WAITING_FOR_RECEIVER, ticket := some "abc123",
                   selectedPath := some "/tmp/a.bin", pathType := some .file }

/-- A state mid-transfer. -/
def exTransferring : SenderState :=
  { exWaiting with senderStatus := .TRANSFERRING, transferStartTime := some 100 }

/-- A manually stopped state in which the manual-stop flag is still set. -/
def exStoppedFlag : SenderState :=
  { exTransferring with senderStatus := .TRANSFER_STOPPED, wasManuallyStopped := true }

/-- A completed state holding terminal metadata. -/
def exComplete : SenderState :=
  { exTransferring with senderStatus := .TRANSFER_COMPLETE,
                        transferMetadata := some ⟨"a.bin", 2048, 100, 100, 200, false⟩ }

/-- A manually stopped state whose 2000 ms decay timer is armed. -/
def exArmedStop : SenderState :=
  { exStoppedFlag with stopDecayArmed := true }

/-- A failure-stopped state whose 2000 ms decay timer is armed. -/
def exArmedFailed : SenderState :=
  { exTransferring with senderStatus := .TRANSFER_STOPPED, failedDecayArmed := true }

/-- Select a file and start sharing: the shortest trace reaching
WAITING_FOR_RECEIVER. -/
def traceStart : List Trigger :=
  [.selectFile "/tmp/a.bin" (some .file), .startShare (.ok "abc123")]

/-- A full successful attempt: select, start, first progress sample,
completion arrival, file-size resolution. -/
def traceComplete : List Trigger :=
  traceStart ++ [.progressEvent "1024:2048:500000" 100, .completedArrive 200,
                 .completeResolve (some 2048)]

/-- A failure in WAITING_FOR_RECEIVER followed by the firing of the
failure decay timer. -/
def traceFailedDecay : List Trigger :=
  traceStart ++ [.failedEvent 50, .failedDecayFire]

/-- A completion whose file-size lookup is still in flight when the user
stops the transfer. -/
def traceStopDuringLookup : List Trigger :=
  traceStart ++ [.progressEvent "1024:2048:500000" 100, .completedArrive 200,
                 .stopShare 300 (.ok ())]

/-- A stopped first attempt, a reset, and a freshly started second
attempt, with the first decay timer still armed throughout. -/
def traceSecondAttempt : List Trigger :=
  [.selectFile "/tmp/a.bin" (some .file), .startShare (.ok "t1"),
   .progressEvent "1:2:3" 10, .stopShare 20 (.ok ()), .stopShare 30 (.ok ()),
   .selectFile "/tmp/b.bin" (some .file), .startShare (.ok "t2")]

/-- Full reset as performed by every stopSharing path into IDLE: status
IDLE with ticket, selection, visible progress, metadata and the
manual-stop flag all cleared. -/
def clearedToIdle (s : SenderState) : Prop :=
  s.senderStatus = .IDLE ∧ s.ticket = none ∧ s.selectedPath = none ∧
  s.transferProgress = none ∧ s.transferMetadata = none ∧ s.wasManuallyStopped = false

/-- The ticket is present whenever the machine is waiting for a receiver
or transferring. -/
def ticketPresent (s : SenderState) : Prop :=
  s.senderStatus = .WAITING_FOR_RECEIVER ∨ s.senderStatus = .TRANSFERRING →
    s.ticket ≠ none

/-! Theorems settling the claims. -/

/-- Every trigger preserves the ticket-presence invariant. -/
theorem step_preserves_ticketPresent (t : Trigger) (s : SenderState)
    (h : ticketPresent s) : ticketPresent (step t s) := by
  cases t <;>
    simp only [step, handleFileSelect, startSharing, stopSharing, onTransferProgress,
      onTransferCompleted, onGetFileSizeResolved, onTransferFailed, fireProgressTimeout,
      stopAutoDecay, failedAutoDecay, setTransferProgress, showAlert, ticketPresent] at h ⊢ <;>
    (repeat' split) <;>
    intro hst <;>
    simp_all

/-- Running any trigger list preserves the ticket-presence invariant. -/
theorem run_preserves_ticketPresent :
    ∀ (l : List Trigger) (s : SenderState), ticketPresent s → ticketPresent (run s l)
  | [], _, h => h
  | t :: ts, s, h =>
    run_preserves_ticketPresent ts (step t s) (step_preserves_ticketPresent t s h)

/-- C1: a completed notification arriving while the state is not
TRANSFERRING leaves the whole state unchanged (no transition, no
metadata); arriving in TRANSFERRING with the manual-stop flag false, it
leads to TRANSFER_COMPLETE once the file-size lookup resolves. -/
theorem C1_completed_gating (s : SenderState) (now : Nat) (fsRes : Option Nat) :
    (s.senderStatus ≠ .TRANSFERRING → step (.completedArrive now) s = s)
    ∧ (s.senderStatus = .TRANSFERRING → s.wasManuallyStopped = false →
        (step (.completeResolve fsRes) (step (.completedArrive now) s)).senderStatus
          = .TRANSFER_COMPLETE) := by
  constructor
  · intro h
    by_cases hf : s.wasManuallyStopped <;> simp [step, onTransferCompleted, h, hf]
  · intro hS hF
    cases hp : s.selectedPath <;> cases hpc : s.pendingComplete <;>
      simp [step, onTransferCompleted, onGetFileSizeResolved, hS, hF, hp, hpc,
            setTransferProgress]

/-- Witness for C1 at concrete states: discarded in WAITING_FOR_RECEIVER,
committed from TRANSFERRING. -/
theorem C1_completed_gating_witness :
    step (.completedArrive 5) exWaiting = exWaiting
    ∧ (step (.completeResolve (some 7)) (step (.completedArrive 5) exTransferring)).senderStatus
        = .TRANSFER_COMPLETE :=
  ⟨(C1_completed_gating exWaiting 5 (some 7)).1 (by decide),
   (C1_completed_gating exTransferring 5 (some 7)).2 (by decide) (by decide)⟩

/-- C2: with the manual-stop flag set, a completed or failed notification
changes nothing at all. -/
theorem C2_manual_stop_noop (s : SenderState) (n1 n2 : Nat)
    (h : s.wasManuallyStopped = true) :
    step (.completedArrive n1) s = s ∧ step (.failedEvent n2) s = s := by
  constructor <;> simp [step, onTransferCompleted, onTransferFailed, h]

/-- Witness for C2 at a concrete manually stopped state. -/
theorem C2_manual_stop_noop_witness :
    step (.completedArrive 5) exStoppedFlag = exStoppedFlag
    ∧ step (.failedEvent 6) exStoppedFlag = exStoppedFlag :=
  C2_manual_stop_noop exStoppedFlag 5 6 (by decide)

/-- Counterexample for C3: after a failure followed by the firing of the
failure decay timer, the machine is in IDLE while the ticket and the
selected path are still set, so the decay into IDLE did not clear them
and IDLE does not imply their absence. -/
theorem C3_idle_clear_counterexample :
    (run initState traceFailedDecay).senderStatus = .IDLE
    ∧ (run initState traceFailedDecay).ticket = some "abc123"
    ∧ (run initState traceFailedDecay).selectedPath = some "/tmp/a.bin" := by
  decide

/-- C3 amended: the three stopSharing-owned transitions into IDLE (stop
from WAITING_FOR_RECEIVER, reset from TRANSFER_COMPLETE or
TRANSFER_STOPPED, and the decay scheduled by a manual stop) clear ticket,
selection, visible progress, metadata and the manual-stop flag in the
same step; the decay scheduled by the failure listener sets IDLE but
clears only the metadata, leaving ticket, selection, progress and flag
untouched. -/
theorem C3_idle_clear_amended (s : SenderState) (now : Nat) (r : Except String Unit) :
    (s.senderStatus = .WAITING_FOR_RECEIVER →
       clearedToIdle (step (.stopShare now (.ok ())) s))
    ∧ (s.senderStatus = .TRANSFER_COMPLETE ∨ s.senderStatus = .TRANSFER_STOPPED →
       clearedToIdle (step (.stopShare now r) s))
    ∧ (s.stopDecayArmed = true → clearedToIdle (step .stopDecayFire s))
    ∧ (s.failedDecayArmed = true →
        (step .failedDecayFire s).senderStatus = .IDLE
        ∧ (step .failedDecayFire s).transferMetadata = none
        ∧ (step .failedDecayFire s).ticket = s.ticket
        ∧ (step .failedDecayFire s).selectedPath = s.selectedPath
        ∧ (step .failedDecayFire s).transferProgress = s.transferProgress
        ∧ (step .failedDecayFire s).wasManuallyStopped = s.wasManuallyStopped) := by
  refine ⟨?_, ?_, ?_, ?_⟩
  · intro h
    simp [step, stopSharing, setTransferProgress, clearedToIdle, h]
  · intro h
    rcases h with h | h <;> simp [step, stopSharing, setTransferProgress, clearedToIdle, h]
  · intro h
    simp [step, stopAutoDecay, setTransferProgress, clearedToIdle, h]
  · intro h
    simp [step, failedAutoDecay, h]

/-- Witness for C3 amended at concrete states for all four transitions. -/
theorem C3_idle_clear_amended_witness :
    clearedToIdle (step (.stopShare 5 (.ok ())) exWaiting)
    ∧ clearedToIdle (step (.stopShare 5 (.ok ())) exComplete)
    ∧ clearedToIdle (step .stopDecayFire exArmedStop)
    ∧ (step .failedDecayFire exArmedFailed).senderStatus = .IDLE :=
  ⟨(C3_idle_clear_amended exWaiting 5 (.ok ())).1 (by decide),
   (C3_idle_clear_amended exComplete 5 (.ok ())).2.1 (Or.inl (by decide)),
   (C3_idle_clear_amended exArmedStop 5 (.ok ())).2.2.1 (by decide),
   ((C3_idle_clear_amended exArmedFailed 5 (.ok ())).2.2.2 (by decide)).1⟩

/-- Counterexample for C4: a completed transfer reached by the normal
trace still holds the ticket, so the ticket is not absent in
TRANSFER_COMPLETE and the claimed equivalence fails. -/
theorem C4_ticket_counterexample :
    (run initState traceComplete).senderStatus = .TRANSFER_COMPLETE
    ∧ (run initState traceComplete).ticket = some "abc123" := by
  decide

/-- C4 amended: in every reachable state the ticket is non-null whenever
the state is WAITING_FOR_RECEIVER or TRANSFERRING; it is cleared only by
the stopSharing reset paths, so it can persist into TRANSFER_COMPLETE,
TRANSFER_STOPPED and even IDLE. -/
theorem C4_ticket_amended (l : List Trigger)
    (h : (run initState l).senderStatus = .WAITING_FOR_RECEIVER
         ∨ (run initState l).senderStatus = .TRANSFERRING) :
    (run initState l).ticket ≠ none :=
  run_preserves_ticketPresent l initState
    (by intro hst; rcases hst with h0 | h0 <;> simp [initState] at h0) h

/-- Witness for C4 amended on the concrete start trace. -/
theorem C4_ticket_amended_witness : (run initState traceStart).ticket ≠ none :=
  C4_ticket_amended traceStart (Or.inl (by decide))

/-- C5: a payload whose three parts parse as integers b, t, sp yields the
pending visible sample with speedBps = sp / 1000 and percentage =
b / t * 100 for positive t and 0 otherwise, and received in
WAITING_FOR_RECEIVER with positive total it moves the machine to
TRANSFERRING. -/
theorem C5_progress_parse (s : SenderState) (pl p0 p1 p2 : String)
    (b t sp : Int) (now : Nat)
    (hsplit : jsSplit ':' pl = [p0, p1, p2])
    (hb : jsParseInt p0 = some b) (ht : jsParseInt p1 = some t)
    (hsp : jsParseInt p2 = some sp) :
    (step (.progressEvent pl now) s).progressUpdateTimeout
      = some ⟨some b, some t, some ((sp : Rat) / 1000),
              if 0 < t then some ((b : Rat) / (t : Rat) * 100) else some 0⟩
    ∧ (s.senderStatus = .WAITING_FOR_RECEIVER → 0 < t →
        (step (.progressEvent pl now) s).senderStatus = .TRANSFERRING) := by
  constructor
  · by_cases hw : s.senderStatus = .WAITING_FOR_RECEIVER <;> by_cases hpos : (0:Int) < t <;>
      simp [step, onTransferProgress, hsplit, parseSample, hb, ht, hsp, jsGtZero,
            setTransferProgress, hw, hpos]
  · intro hw hpos
    simp [step, onTransferProgress, hsplit, parseSample, hb, ht, hsp, jsGtZero,
          setTransferProgress, hw, hpos]

/-- Witness for C5 on the payload of the spec scenario. -/
theorem C5_progress_parse_witness :
    (step (.progressEvent "1024:2048:500000" 7) exWaiting).progressUpdateTimeout
      = some ⟨some 1024, some 2048, some 500, some 50⟩
    ∧ (step (.progressEvent "1024:2048:500000" 7) exWaiting).senderStatus
        = .TRANSFERRING := by
  have h := C5_progress_parse exWaiting "1024:2048:500000" "1024" "2048" "500000"
    1024 2048 500000 7 (by decide) (by decide) (by decide) (by decide)
  refine ⟨h.1.trans ?_, h.2 (by decide) (by decide)⟩
  norm_num

/-- Counterexample for C6: the payload whose three parts all fail integer
parsing is accepted by the length-3 check; the listener overwrites the
latest-sample reference with a NaN-component sample and arms a visible
update, so the state is not unchanged for this malformed payload. -/
theorem C6_malformed_counterexample :
    jsParseInt "x" = none ∧ jsParseInt "y" = none ∧ jsParseInt "z" = none
    ∧ exTransferring.lastProgressRef = none
    ∧ (step (.progressEvent "x:y:z" 0) exTransferring).lastProgressRef
        = some ⟨none, none, none, some 0⟩
    ∧ exTransferring.progressUpdateTimeout = none
    ∧ (step (.progressEvent "x:y:z" 0) exTransferring).progressUpdateTimeout
        = some ⟨none, none, none, some 0⟩ := by
  decide

/-- C6 amended: a payload is dropped with no change whatsoever exactly
when it does not split into three colon-separated parts; three-part
payloads are accepted even when their components fail integer parsing. -/
theorem C6_malformed_amended (s : SenderState) (pl : String) (now : Nat)
    (hlen : (jsSplit ':' pl).length ≠ 3) :
    step (.progressEvent pl now) s = s := by
  simp only [step, onTransferProgress]
  rcases h : jsSplit ':' pl with _ | ⟨p0, _ | ⟨p1, _ | ⟨p2, _ | ⟨p3, rest⟩⟩⟩⟩ <;>
    simp [h] at hlen ⊢

/-- Witness for C6 amended on a two-part payload. -/
theorem C6_malformed_amended_witness :
    step (.progressEvent "1:2" 0) exTransferring = exTransferring :=
  C6_malformed_amended exTransferring "1:2" 0 (by decide)

/-- C7: every step that moves the machine into TRANSFER_COMPLETE leaves
metadata with wasStopped = false, and every step that moves it into
TRANSFER_STOPPED leaves metadata with wasStopped = true. -/
theorem C7_wasStopped_terminal (t : Trigger) (s : SenderState) :
    ((step t s).senderStatus = .TRANSFER_COMPLETE →
      s.senderStatus ≠ .TRANSFER_COMPLETE →
      ∃ m, (step t s).transferMetadata = some m ∧ m.wasStopped = false)
    ∧ ((step t s).senderStatus = .TRANSFER_STOPPED →
      s.senderStatus ≠ .TRANSFER_STOPPED →
      ∃ m, (step t s).transferMetadata = some m ∧ m.wasStopped = true) := by
  cases t <;>
    simp only [step, handleFileSelect, startSharing, stopSharing, onTransferProgress,
      onTransferCompleted, onGetFileSizeResolved, onTransferFailed, fireProgressTimeout,
      stopAutoDecay, failedAutoDecay, setTransferProgress, showAlert] <;>
    (repeat' split) <;>
    constructor <;> intro h1 h2 <;>
    simp_all

/-- Witness for C7 at a concrete failure from TRANSFERRING. -/
theorem C7_wasStopped_terminal_witness :
    ∃ m, (step (.failedEvent 9) exTransferring).transferMetadata = some m
         ∧ m.wasStopped = true :=
  (C7_wasStopped_terminal (.failedEvent 9) exTransferring).2 (by decide) (by decide)

/-- C8: the code bug at the file-size suspension point. After the stop
trace the machine is TRANSFER_STOPPED with the manual-stop flag set, yet
the resolution of the in-flight file-size lookup commits
TRANSFER_COMPLETE anyway, overwriting the stopped metadata with
wasStopped = false: the continuation re-checks neither the state nor the
flag. -/
theorem C8_stop_race_bug :
    (run initState traceStopDuringLookup).senderStatus = .TRANSFER_STOPPED
    ∧ (run initState traceStopDuringLookup).wasManuallyStopped = true
    ∧ (step (.completeResolve (some 2048)) (run initState traceStopDuringLookup)).senderStatus
        = .TRANSFER_COMPLETE
    ∧ ((step (.completeResolve (some 2048))
          (run initState traceStopDuringLookup)).transferMetadata).map
        TransferMetadata.wasStopped = some false := by
  decide

/-- C9: the code bug of the uncancellable decay timers. After stopping a
transfer, resetting, and starting a second attempt, the machine is
WAITING_FOR_RECEIVER with the decay timer of the first attempt still
armed; when that stale timer fires it resets the second attempt to IDLE
and wipes its ticket. -/
theorem C9_stale_timer_bug :
    (run initState traceSecondAttempt).senderStatus = .WAITING_FOR_RECEIVER
    ∧ (run initState traceSecondAttempt).ticket = some "t2"
    ∧ (run initState traceSecondAttempt).stopDecayArmed = true
    ∧ (step .stopDecayFire (run initState traceSecondAttempt)).senderStatus = .IDLE
    ∧ (step .stopDecayFire (run initState traceSecondAttempt)).ticket = none := by
  decide

/-- C10: for two samples processed in the same debounce window (no timer
firing between them) outside WAITING_FOR_RECEIVER, the latest-sample
reference is updated synchronously on each sample, the later sample
supersedes the pending one, the single firing publishes the latest
sample and empties the window, and a second firing is a no-op. -/
theorem C10_debounce_supersede (s : SenderState) (pl1 pl2 p0 p1 p2 q0 q1 q2 : String)
    (n1 n2 : Nat)
    (hs : s.senderStatus ≠ .WAITING_FOR_RECEIVER)
    (h1 : jsSplit ':' pl1 = [p0, p1, p2])
    (h2 : jsSplit ':' pl2 = [q0, q1, q2]) :
    (step (.progressEvent pl1 n1) s).lastProgressRef = some (parseSample p0 p1 p2)
    ∧ (step (.progressEvent pl2 n2) (step (.progressEvent pl1 n1) s)).lastProgressRef
        = some (parseSample q0 q1 q2)
    ∧ (step (.progressEvent pl2 n2) (step (.progressEvent pl1 n1) s)).progressUpdateTimeout
        = some (parseSample q0 q1 q2)
    ∧ (step .progressTimerFire
        (step (.progressEvent pl2 n2) (step (.progressEvent pl1 n1) s))).transferProgress
        = some (parseSample q0 q1 q2)
    ∧ (step .progressTimerFire
        (step (.progressEvent pl2 n2) (step (.progressEvent pl1 n1) s))).progressUpdateTimeout
        = none
    ∧ step .progressTimerFire (step .progressTimerFire
        (step (.progressEvent pl2 n2) (step (.progressEvent pl1 n1) s)))
      = step .progressTimerFire (step (.progressEvent pl2 n2) (step (.progressEvent pl1 n1) s)) := by
  have e1 : step (.progressEvent pl1 n1) s
      = { s with lastProgressRef := some (parseSample p0 p1 p2),
                 progressUpdateTimeout := some (parseSample p0 p1 p2) } := by
    simp [step, onTransferProgress, h1, hs]
  have e2 : step (.progressEvent pl2 n2) (step (.progressEvent pl1 n1) s)
      = { s with lastProgressRef := some (parseSample q0 q1 q2),
                 progressUpdateTimeout := some (parseSample q0 q1 q2) } := by
    rw [e1]; simp [step, onTransferProgress, h2, hs]
  have e3 : step .progressTimerFire
        (step (.progressEvent pl2 n2) (step (.progressEvent pl1 n1) s))
      = { s with lastProgressRef := some (parseSample q0 q1 q2),
                 transferProgress := some (parseSample q0 q1 q2),
                 progressUpdateTimeout := none } := by
    rw [e2]; simp [step, fireProgressTimeout, setTransferProgress]
  refine ⟨by rw [e1], by rw [e2], by rw [e2], by rw [e3], by rw [e3], ?_⟩
  rw [e3]
  simp [step, fireProgressTimeout]

/-- Witness for C10 on the two payloads of the spec scenario: after the
window fires, only the second sample is visible. -/
theorem C10_debounce_supersede_witness :
    (step .progressTimerFire (step (.progressEvent "50:1000:0" 2)
        (step (.progressEvent "100:1000:0" 1) exTransferring))).transferProgress
      = some ⟨some 50, some 1000, some 0, some 5⟩
    ∧ (step .progressTimerFire (step (.progressEvent "50:1000:0" 2)
        (step (.progressEvent "100:1000:0" 1) exTransferring))).progressUpdateTimeout
      = none := by
  have h := C10_debounce_supersede exTransferring "100:1000:0" "50:1000:0"
    "100" "1000" "0" "50" "1000" "0" 1 2 (by decide) (by decide) (by decide)
  have hq : parseSample "50" "1000" "0" = ⟨some 50, some 1000, some 0, some 5⟩ := by
    have h0 : jsParseInt "50" = some 50 := by decide
    have h1 : jsParseInt "1000" = some 1000 := by decide
    have h2 : jsParseInt "0" = some 0 := by decide
    simp [parseSample, h0, h1, h2, jsGtZero]
    norm_num
  exact ⟨h.2.2.2.1.trans (by rw [hq]), h.2.2.2.2.1⟩

end AltSendme
